import Mathlib

/-!
Verification development for the PDF-to-table conversion pipeline
(`app_v1.2.0.py`).  The pure string-processing core of the program is
shallowly embedded here: Python strings become Lean `String`s (lists of
characters), `dict` rows become partial maps `String → Option String`,
and the external regular-expression engine (Python's `re` module) is
modelled as an abstract `RegexEngine` that the extraction functions are
parametric over; the per-field control flow around the engine is
transcribed from the source.  The one regex whose own semantics a claim
describes (`dept\.\s*([\d\.]+)`, IGNORECASE) is additionally given a
concrete executable scanner together with a leftmost-match
characterisation.
-/

namespace PdfTable

/-- Whitespace as Python's `str.strip` / the regex class `\s` see it
(ASCII subset: space, tab, newline, carriage return, vertical tab,
form feed). -/
def isPySpace (c : Char) : Bool :=
  c = ' ' || c = '\t' || c = '\n' || c = '\r' || c = '\x0b' || c = '\x0c'

/-- Left strip on character lists (`str.lstrip`). -/
def stripLeftL (l : List Char) : List Char := l.dropWhile isPySpace

/-- Right strip on character lists (`str.rstrip`). -/
def stripRightL (l : List Char) : List Char :=
  (l.reverse.dropWhile isPySpace).reverse

/-- Both-ends strip on character lists. -/
def stripL (l : List Char) : List Char := stripRightL (stripLeftL l)

/-- Python `str.strip()` on strings. -/
def pyStrip (s : String) : String := ⟨stripL s.data⟩

/-- Decidable prefix test on character lists (no typeclass detour). -/
def isPre : List Char → List Char → Bool
  | [], _ => true
  | _ :: _, [] => false
  | a :: n, b :: h => a = b && isPre n h

/-- Contiguous-occurrence test: does `needle` occur inside `hay`?
This models Python's `needle in hay` on strings. -/
def occursIn (needle : List Char) : List Char → Bool
  | [] => isPre needle []
  | c :: t => isPre needle (c :: t) || occursIn needle t

/-- Python's `needle in hay` membership test for strings. -/
def pyIn (needle hay : String) : Bool := occursIn needle.data hay.data

/-- Split a character list on `'/'`; mirrors Python `str.split('/')`
(so the empty list yields one empty part). -/
def splitOnSlashL : List Char → List (List Char)
  | [] => [[]]
  | c :: rest =>
    match splitOnSlashL rest with
    | [] => if c = '/' then [[], []] else [[c]]
    | p :: ps => if c = '/' then [] :: p :: ps else (c :: p) :: ps

/-- Join character lists with `'/'` separators (inverse of the split). -/
def joinSlashL : List (List Char) → List Char
  | [] => []
  | [p] => p
  | p :: q :: qs => p ++ '/' :: joinSlashL (q :: qs)

/-- Python `s[-2:]`: the last two characters (or the whole list when
shorter). -/
def pyLastTwo (l : List Char) : List Char := l.drop (l.length - 2)

/-- Date reformatting, transcribed from
`UnifiedPDFProcessor.convert_date_format` (lines 182-210): convert a
slash-delimited date to `MM/DD/YY` given the declared source order.
The sentinel and the empty string pass through; otherwise the input is
stripped, split on `'/'`, and only a 3-part split is reordered /
year-truncated.  The Python `except` clause is unreachable for the
string operations involved and is not modelled. -/
def convert_date_format (dateStr : String) (sourceFormat : String) : String :=
  if dateStr = "Not extracted" ∨ dateStr = "" then dateStr
  else if sourceFormat = "dmy" then
    match splitOnSlashL (pyStrip dateStr).data with
    | [d, m, y] =>
      if y.length = 2 then ⟨m ++ '/' :: (d ++ '/' :: y)⟩
      else ⟨m ++ '/' :: (d ++ '/' :: pyLastTwo y)⟩
    | _ => pyStrip dateStr
  else if sourceFormat = "mdy" then
    match splitOnSlashL (pyStrip dateStr).data with
    | [m, d, y] =>
      if y.length = 2 then pyStrip dateStr
      else ⟨m ++ '/' :: (d ++ '/' :: pyLastTwo y)⟩
    | _ => pyStrip dateStr
  else pyStrip dateStr

section StripLemmas

theorem dropWhile_self_of_head {p : Char → Bool} {l : List Char}
    (h : ∀ c, l.head? = some c → p c = false) : l.dropWhile p = l := by
  cases l with
  | nil => rfl
  | cons c t =>
    have := h c rfl
    simp [List.dropWhile_cons, this]

theorem head_dropWhile_false {p : Char → Bool} {l : List Char} {c : Char}
    (h : (l.dropWhile p).head? = some c) : p c = false := by
  induction l with
  | nil => simp [List.dropWhile] at h
  | cons a t ih =>
    by_cases hpa : p a
    · rw [List.dropWhile_cons_of_pos hpa] at h
      exact ih h
    · rw [List.dropWhile_cons_of_neg hpa] at h
      simp at h hpa
      rwa [← h]

theorem dropWhile_idem (p : Char → Bool) (l : List Char) :
    (l.dropWhile p).dropWhile p = l.dropWhile p := by
  apply dropWhile_self_of_head
  intro c hc
  exact head_dropWhile_false hc

/-- The left-stripped list is obtained by deleting a prefix. -/
theorem stripLeftL_exists_pre (l : List Char) :
    ∃ a, l = a ++ stripLeftL l :=
  ⟨l.takeWhile isPySpace, (List.takeWhile_append_dropWhile ..).symm⟩

/-- The right-stripped list is obtained by deleting a suffix. -/
theorem stripRightL_exists_post (l : List Char) :
    ∃ b, l = stripRightL l ++ b := by
  refine ⟨(l.reverse.takeWhile isPySpace).reverse, ?_⟩
  conv_lhs =>
    rw [← l.reverse_reverse,
      ← List.takeWhile_append_dropWhile (p := isPySpace) (l := l.reverse)]
  rw [List.reverse_append]
  rfl

/-- The fully stripped list sits inside the original. -/
theorem stripL_exists_around (l : List Char) :
    ∃ a b, l = a ++ (stripL l ++ b) := by
  obtain ⟨a, ha⟩ := stripLeftL_exists_pre l
  obtain ⟨b, hb⟩ := stripRightL_exists_post (stripLeftL l)
  refine ⟨a, b, ?_⟩
  conv_lhs => rw [ha, hb]
  rfl

theorem stripLeftL_idem (l : List Char) :
    stripLeftL (stripLeftL l) = stripLeftL l := dropWhile_idem ..

theorem stripRightL_idem (l : List Char) :
    stripRightL (stripRightL l) = stripRightL l := by
  unfold stripRightL
  rw [List.reverse_reverse, dropWhile_idem]

theorem stripLeftL_head {l : List Char} {c : Char}
    (h : (stripLeftL l).head? = some c) : isPySpace c = false :=
  head_dropWhile_false h

/-- Right stripping does not disturb an already-stripped left end. -/
theorem stripLeftL_stripRightL (l : List Char)
    (h : stripLeftL l = l) : stripLeftL (stripRightL l) = stripRightL l := by
  obtain ⟨b, hb⟩ := stripRightL_exists_post l
  apply dropWhile_self_of_head
  intro c hc
  apply head_dropWhile_false (p := isPySpace) (l := l)
  show (stripLeftL l).head? = some c
  rw [h, hb]
  cases hsr : stripRightL l with
  | nil => rw [hsr] at hc; simp at hc
  | cons x t =>
    rw [hsr] at hc
    simp at hc ⊢
    exact hc

theorem stripL_idem (l : List Char) : stripL (stripL l) = stripL l := by
  unfold stripL
  have h1 : stripLeftL (stripRightL (stripLeftL l))
      = stripRightL (stripLeftL l) :=
    stripLeftL_stripRightL _ (stripLeftL_idem l)
  rw [h1, stripRightL_idem]

theorem pyStrip_idem (s : String) : pyStrip (pyStrip s) = pyStrip s := by
  unfold pyStrip
  rw [stripL_idem]

end StripLemmas

section SlashLemmas

theorem splitOnSlashL_ne_nil (l : List Char) : splitOnSlashL l ≠ [] := by
  cases l with
  | nil => simp [splitOnSlashL]
  | cons c t =>
    simp only [splitOnSlashL]
    cases splitOnSlashL t with
    | nil => by_cases hc : c = '/' <;> simp [hc]
    | cons p ps => by_cases hc : c = '/' <;> simp [hc]

theorem joinSlashL_splitOnSlashL (l : List Char) :
    joinSlashL (splitOnSlashL l) = l := by
  induction l with
  | nil => rfl
  | cons c t ih =>
    simp only [splitOnSlashL]
    cases h : splitOnSlashL t with
    | nil => exact absurd h (splitOnSlashL_ne_nil t)
    | cons p ps =>
      rw [h] at ih
      by_cases hc : c = '/'
      · subst hc
        simp only [if_pos rfl, joinSlashL, List.nil_append]
        rw [ih]
      · simp only [if_neg hc]
        cases ps with
        | nil =>
          simp only [joinSlashL] at ih ⊢
          rw [ih]
        | cons q qs =>
          simp only [joinSlashL] at ih ⊢
          rw [List.cons_append, ih]

theorem splitOnSlashL_no_slash (l : List Char) :
    ∀ p ∈ splitOnSlashL l, '/' ∉ p := by
  induction l with
  | nil =>
    intro p hp
    simp [splitOnSlashL] at hp
    subst hp
    simp
  | cons c t ih =>
    intro p hp
    simp only [splitOnSlashL] at hp
    cases h : splitOnSlashL t with
    | nil => exact absurd h (splitOnSlashL_ne_nil t)
    | cons q qs =>
      rw [h] at hp
      simp only [] at hp
      by_cases hc : c = '/'
      · rw [if_pos hc] at hp
        rcases List.mem_cons.mp hp with h1 | h2
        · subst h1; simp
        · apply ih; rw [h]; exact h2
      · rw [if_neg hc] at hp
        rcases List.mem_cons.mp hp with h1 | h2
        · subst h1
          intro hmem
          rcases List.mem_cons.mp hmem with h3 | h4
          · exact hc h3.symm
          · exact ih q (by rw [h]; exact List.mem_cons_self q qs) h4
        · apply ih; rw [h]; exact List.mem_cons_of_mem q h2

theorem splitOnSlashL_of_no_slash (a : List Char) (ha : '/' ∉ a) :
    splitOnSlashL a = [a] := by
  induction a with
  | nil => rfl
  | cons c t ih =>
    have hc : ¬ c = '/' := fun h => ha (by rw [h]; exact List.mem_cons_self _ _)
    have ht : '/' ∉ t := fun h => ha (List.mem_cons_of_mem c h)
    simp only [splitOnSlashL]
    rw [ih ht]
    simp [hc]

theorem splitOnSlashL_append_slash (a l : List Char) (ha : '/' ∉ a) :
    splitOnSlashL (a ++ '/' :: l) = a :: splitOnSlashL l := by
  induction a with
  | nil =>
    simp only [List.nil_append, splitOnSlashL]
    cases h : splitOnSlashL l with
    | nil => exact absurd h (splitOnSlashL_ne_nil l)
    | cons p ps => simp
  | cons c t ih =>
    have hc : ¬ c = '/' := fun h => ha (by rw [h]; exact List.mem_cons_self _ _)
    have ht : '/' ∉ t := fun h => ha (List.mem_cons_of_mem c h)
    rw [List.cons_append]
    simp only [splitOnSlashL]
    rw [ih ht]
    simp [hc]

end SlashLemmas

section LastTwoLemmas

theorem pyLastTwo_length_le (l : List Char) : (pyLastTwo l).length ≤ 2 := by
  unfold pyLastTwo
  rw [List.length_drop]
  omega

theorem pyLastTwo_self_of_le {l : List Char} (h : l.length ≤ 2) :
    pyLastTwo l = l := by
  unfold pyLastTwo
  have h2 : l.length - 2 = 0 := by omega
  rw [h2, List.drop_zero]

theorem pyLastTwo_idem (l : List Char) :
    pyLastTwo (pyLastTwo l) = pyLastTwo l :=
  pyLastTwo_self_of_le (pyLastTwo_length_le l)

theorem mem_of_mem_pyLastTwo {c : Char} {l : List Char}
    (h : c ∈ pyLastTwo l) : c ∈ l :=
  List.mem_of_mem_drop h

theorem pyLastTwo_ne_nil {l : List Char} (h : l ≠ []) : pyLastTwo l ≠ [] := by
  intro hn
  apply h
  have hlen := congrArg List.length hn
  rw [pyLastTwo, List.length_drop, List.length_nil] at hlen
  exact List.length_eq_zero.mp (by omega)

theorem getLast?_pyLastTwo {l : List Char} (h : pyLastTwo l ≠ []) :
    (pyLastTwo l).getLast? = l.getLast? := by
  unfold pyLastTwo at h ⊢
  conv_rhs => rw [← List.take_append_drop (l.length - 2) l]
  rw [List.getLast?_append_of_ne_nil _ h]

end LastTwoLemmas

section StripEndLemmas

theorem stripRightL_head {w : List Char} {c : Char}
    (h : (stripRightL w).head? = some c) : w.head? = some c := by
  obtain ⟨b, hb⟩ := stripRightL_exists_post w
  rw [hb]
  cases hsr : stripRightL w with
  | nil => rw [hsr] at h; simp at h
  | cons x t =>
    rw [hsr] at h
    simp at h ⊢
    exact h

theorem stripL_head {l : List Char} {c : Char}
    (h : (stripL l).head? = some c) : isPySpace c = false :=
  stripLeftL_head (stripRightL_head h)

theorem stripRightL_getLast {w : List Char} {c : Char}
    (h : (stripRightL w).getLast? = some c) : isPySpace c = false := by
  rw [← List.head?_reverse] at h
  unfold stripRightL at h
  rw [List.reverse_reverse] at h
  exact head_dropWhile_false h

theorem stripL_getLast {l : List Char} {c : Char}
    (h : (stripL l).getLast? = some c) : isPySpace c = false :=
  stripRightL_getLast h

theorem stripL_eq_self {l : List Char}
    (hh : ∀ c, l.head? = some c → isPySpace c = false)
    (hl : ∀ c, l.getLast? = some c → isPySpace c = false) :
    stripL l = l := by
  unfold stripL
  have h1 : stripLeftL l = l := dropWhile_self_of_head hh
  rw [h1]
  unfold stripRightL
  have h2 : l.reverse.dropWhile isPySpace = l.reverse := by
    apply dropWhile_self_of_head
    intro c hc
    rw [List.head?_reverse] at hc
    exact hl c hc
  rw [h2, List.reverse_reverse]

end StripEndLemmas

section ConvertLemmas

theorem convert_of_special {d : String} (h : d = "Not extracted" ∨ d = "") :
    convert_date_format d "mdy" = d := by
  unfold convert_date_format
  rw [if_pos h]

theorem convert_mdy_of_three {d : String} {m dd y : List Char}
    (h0 : ¬(d = "Not extracted" ∨ d = ""))
    (hsp : splitOnSlashL (pyStrip d).data = [m, dd, y]) :
    convert_date_format d "mdy"
      = if y.length = 2 then pyStrip d
        else ⟨m ++ '/' :: (dd ++ '/' :: pyLastTwo y)⟩ := by
  unfold convert_date_format
  rw [if_neg h0, if_neg (by decide : ¬("mdy" : String) = "dmy"),
    if_pos rfl, hsp]

theorem convert_mdy_of_other {d : String}
    (h0 : ¬(d = "Not extracted" ∨ d = ""))
    (hother : ∀ m dd y : List Char,
      splitOnSlashL (pyStrip d).data ≠ [m, dd, y]) :
    convert_date_format d "mdy" = pyStrip d := by
  unfold convert_date_format
  rw [if_neg h0, if_neg (by decide : ¬("mdy" : String) = "dmy"), if_pos rfl]
  split
  · next m dd y heq => exact absurd heq (hother m dd y)
  · rfl

theorem convert_fix_of_nonthree {d : String}
    (h0 : ¬(d = "Not extracted" ∨ d = ""))
    (hother : ∀ m dd y : List Char,
      splitOnSlashL (pyStrip d).data ≠ [m, dd, y]) :
    convert_date_format (convert_date_format d "mdy") "mdy"
      = convert_date_format d "mdy" := by
  rw [convert_mdy_of_other h0 hother]
  by_cases h1 : pyStrip d = "Not extracted" ∨ pyStrip d = ""
  · exact convert_of_special h1
  · have h2 : ∀ m dd y : List Char,
        splitOnSlashL (pyStrip (pyStrip d)).data ≠ [m, dd, y] := by
      intro m dd y hcon
      apply hother m dd y
      rw [← pyStrip_idem d]
      exact hcon
    rw [convert_mdy_of_other h1 h2, pyStrip_idem]

theorem getLast?_two_blocks (a b w : List Char) (hw : w ≠ []) :
    (a ++ '/' :: (b ++ '/' :: w)).getLast? = w.getLast? := by
  rw [List.getLast?_append_of_ne_nil _ (by simp)]
  rw [show ('/' :: (b ++ '/' :: w)) = ['/'] ++ (b ++ '/' :: w) from rfl]
  rw [List.getLast?_append_of_ne_nil _ (by simp)]
  rw [List.getLast?_append_of_ne_nil _ (by simp)]
  rw [show ('/' : Char) :: w = ['/'] ++ w from rfl]
  rw [List.getLast?_append_of_ne_nil _ hw]

theorem getLast?_end_slash (x : List Char) :
    (x ++ ['/']).getLast? = some '/' := by
  rw [List.getLast?_append_of_ne_nil _ (by simp)]
  rfl

end ConvertLemmas

/-- C6: date reformatting with source format mdy is idempotent:
applying `convert_date_format · "mdy"` twice agrees with applying
it once, for every input string.  (Spec §8, third testable property.) -/
theorem c6_convert_date_mdy_idempotent (d : String) :
    convert_date_format (convert_date_format d "mdy") "mdy"
      = convert_date_format d "mdy" := by
  by_cases h0 : d = "Not extracted" ∨ d = ""
  · rw [convert_of_special h0, convert_of_special h0]
  · rcases hsp : splitOnSlashL (pyStrip d).data with
      _ | ⟨m, _ | ⟨dd, _ | ⟨y, _ | ⟨z, rest⟩⟩⟩⟩
    · exact convert_fix_of_nonthree h0 (by intro a b c hco; rw [hsp] at hco; simp at hco)
    · exact convert_fix_of_nonthree h0 (by intro a b c hco; rw [hsp] at hco; simp at hco)
    · exact convert_fix_of_nonthree h0 (by intro a b c hco; rw [hsp] at hco; simp at hco)
    · -- exactly three parts
      have hjoin : (pyStrip d).data = m ++ '/' :: (dd ++ '/' :: y) := by
        have hj := joinSlashL_splitOnSlashL (pyStrip d).data
        rw [hsp] at hj
        simp only [joinSlashL] at hj
        exact hj.symm
      have hm : '/' ∉ m := splitOnSlashL_no_slash _ m (by rw [hsp]; simp)
      have hdd : '/' ∉ dd := splitOnSlashL_no_slash _ dd (by rw [hsp]; simp)
      have hy : '/' ∉ y := splitOnSlashL_no_slash _ y (by rw [hsp]; simp)
      have hslash : '/' ∈ (pyStrip d).data := by rw [hjoin]; simp
      have hs0 : ¬(pyStrip d = "Not extracted" ∨ pyStrip d = "") := by
        rintro (h1 | h1) <;> rw [h1] at hslash <;> revert hslash <;> decide
      rw [convert_mdy_of_three h0 hsp]
      by_cases hy2 : y.length = 2
      · rw [if_pos hy2,
          convert_mdy_of_three hs0 (by rw [pyStrip_idem]; exact hsp),
          if_pos hy2, pyStrip_idem]
      · rw [if_neg hy2]
        set r : String := ⟨m ++ '/' :: (dd ++ '/' :: pyLastTwo y)⟩ with hr
        have hrdata : r.data = m ++ '/' :: (dd ++ '/' :: pyLastTwo y) := rfl
        have hrslash : '/' ∈ r.data := by rw [hrdata]; simp
        have hr0 : ¬(r = "Not extracted" ∨ r = "") := by
          rintro (h1 | h1) <;> rw [h1] at hrslash <;> revert hrslash <;> decide
        have hlastd : ∀ c : Char, (pyStrip d).data.getLast? = some c →
            isPySpace c = false := fun c hc => stripL_getLast (l := d.data) hc
        have hheadd : ∀ c : Char, (pyStrip d).data.head? = some c →
            isPySpace c = false := fun c hc => stripL_head (l := d.data) hc
        have hstripr : pyStrip r = r := by
          show (⟨stripL r.data⟩ : String) = r
          rw [stripL_eq_self ?hh ?hl]
          case hh =>
            intro c hc
            rw [hrdata] at hc
            cases m with
            | nil =>
              simp at hc
              rw [← hc]
              decide
            | cons a as =>
              simp at hc
              apply hheadd c
              rw [hjoin]
              simp [hc]
          case hl =>
            intro c hc
            rw [hrdata] at hc
            by_cases hynil : y = []
            · subst hynil
              have : pyLastTwo ([] : List Char) = [] := rfl
              rw [this] at hc
              rw [show m ++ '/' :: (dd ++ '/' :: ([] : List Char))
                  = (m ++ '/' :: dd) ++ ['/'] by simp] at hc
              rw [getLast?_end_slash] at hc
              simp at hc
              rw [← hc]
              decide
            · have hy'nil : pyLastTwo y ≠ [] := pyLastTwo_ne_nil hynil
              rw [getLast?_two_blocks _ _ _ hy'nil, getLast?_pyLastTwo hy'nil] at hc
              apply hlastd c
              rw [hjoin, getLast?_two_blocks _ _ _ hynil]
              exact hc
        have hy' : '/' ∉ pyLastTwo y := fun h => hy (mem_of_mem_pyLastTwo h)
        have hsplitr : splitOnSlashL r.data = [m, dd, pyLastTwo y] := by
          rw [hrdata, splitOnSlashL_append_slash _ _ hm,
            splitOnSlashL_append_slash _ _ hdd,
            splitOnSlashL_of_no_slash _ hy']
        rw [convert_mdy_of_three hr0 (by rw [hstripr]; exact hsplitr)]
        by_cases hy2' : (pyLastTwo y).length = 2
        · rw [if_pos hy2', hstripr]
        · rw [if_neg hy2', pyLastTwo_idem]
    · exact convert_fix_of_nonthree h0 (by intro a b c hco; rw [hsp] at hco; simp at hco)

section OccursLemmas

theorem isPre_append {n h : List Char} (post : List Char)
    (hp : isPre n h = true) : isPre n (h ++ post) = true := by
  induction n generalizing h with
  | nil => rfl
  | cons a n ih =>
    cases h with
    | nil => simp [isPre] at hp
    | cons b t =>
      simp only [isPre, Bool.and_eq_true, decide_eq_true_eq] at hp
      simp only [List.cons_append, isPre, Bool.and_eq_true, decide_eq_true_eq]
      exact ⟨hp.1, ih hp.2⟩

theorem occursIn_nil_needle (l : List Char) : occursIn [] l = true := by
  cases l with
  | nil => rfl
  | cons c t => simp [occursIn, isPre]

theorem occursIn_append_right {n h : List Char} (post : List Char)
    (ho : occursIn n h = true) : occursIn n (h ++ post) = true := by
  induction h with
  | nil =>
    cases n with
    | nil => exact occursIn_nil_needle post
    | cons a n' => simp [occursIn, isPre] at ho
  | cons c t ih =>
    simp only [occursIn, Bool.or_eq_true] at ho
    simp only [List.cons_append, occursIn, Bool.or_eq_true]
    rcases ho with h1 | h2
    · left
      have := isPre_append post h1
      simpa using this
    · right; exact ih h2

theorem occursIn_append_left {n h : List Char} (pre : List Char)
    (ho : occursIn n h = true) : occursIn n (pre ++ h) = true := by
  induction pre with
  | nil => exact ho
  | cons c t ih =>
    simp only [List.cons_append, occursIn, Bool.or_eq_true]
    right
    exact ih

theorem occursIn_stripL {n l : List Char}
    (h : occursIn n (stripL l) = true) : occursIn n l = true := by
  obtain ⟨a, b, hab⟩ := stripL_exists_around l
  rw [hab]
  exact occursIn_append_left a (occursIn_append_right b h)

theorem pyIn_pyStrip {needle s : String}
    (h : pyIn needle (pyStrip s) = true) : pyIn needle s = true :=
  occursIn_stripL h

end OccursLemmas

/-- A tabular row: a partial map from column names to string values.
This models a pandas `DataFrame` row (a Python dict): a key absent from
`row.index` is `none`.  The embedding carries string values only, so the
source's `pd.isna` test (line 151), which is always false for the string
data this pipeline produces, has no separate representation. -/
def Row : Type := String → Option String

/-- Value sanitiser, transcribed from `DataMapper.safe_extract_value`
(lines 137-157): empty string for an absent column, for a value
containing the literal `"Not extracted"`, or for an empty/whitespace-only
value; otherwise the stripped value.  The `except` clause of the source
is unreachable in this pure model. -/
def safe_extract_value (row : Row) (columnName : String) : String :=
  match row columnName with
  | none => ""
  | some value =>
    if pyIn "Not extracted" value then ""
    else if pyStrip value = "" then ""
    else pyStrip value

/-- Claim-type derivation, transcribed from `DataMapper.get_claim_type`
(lines 109-124).  The guard `if not decision_value` is the emptiness
test on the sanitised value. -/
def get_claim_type (row : Row) : String :=
  if safe_extract_value row "Decision" = "" then "Claim"
  else if pyIn "Not extracted" (safe_extract_value row "Decision") then ""
  else if safe_extract_value row "Decision" = "QD45 (Q)" ∨
      safe_extract_value row "Decision" = "Q" then "Complaint"
  else "Claim"

/-- Combined random-check field, transcribed from
`DataMapper.combine_faulty_random` (lines 126-135); Python truthiness of
a string is the non-emptiness test. -/
def combine_faulty_random (row : Row) : String :=
  if safe_extract_value row "Faulty pcs" ≠ "" ∧
      safe_extract_value row "Random quantity" ≠ "" ∧
      safe_extract_value row "Faulty pcs" ≠ "Not extracted" ∧
      safe_extract_value row "Random quantity" ≠ "Not extracted" then
    safe_extract_value row "Faulty pcs" ++ "/" ++
      safe_extract_value row "Random quantity"
  else ""

/-- The fixed 25-column target schema (`DataMapper.target_columns`,
lines 43-50). -/
def target_columns : List String :=
  ["Picture", "Production Type", "Claim Type", "Vendor", "Claim No.",
   "Claim Date", "Inspection Date", "Customer", "Dept.", "FID",
   "TEAM", "QC Trip Leader", "Style NO.", "Order No.", "Article No.",
   "Relevant shipped Qty", "Quality Digit (Market)", "Defect Code",
   "Claim Reason", "QC Responsibility", "Claim Status", "Validate Month",
   "Claim shipped Qty", "Random check in customer warehouse",
   "Re-check in warehouse"]

/-- Update the value stored under key `k` in an ordered record (Python
dict update on an existing key keeps insertion order). -/
def setCol (row : List (String × String)) (k v : String) :
    List (String × String) :=
  row.map fun p => if p.1 = k then (p.1, v) else p

/-- The ten 1:1 column mappings of `process_single_row` (lines 82-93),
target column first. -/
def field_mappings : List (String × String) :=
  [("Vendor", "Supplier Name"), ("Claim No.", "Claim no"),
   ("Customer", "customer_name"), ("Dept.", "Dept."),
   ("Style NO.", "Style No"), ("Order No.", "Order No"),
   ("Article No.", "Item No"),
   ("Relevant shipped Qty", "Delivered quantity"),
   ("Claim Reason", "Description of faults"),
   ("Claim Date", "Date of decision")]

/-- Single-row schema mapping, transcribed from
`DataMapper.process_single_row` (lines 71-107): initialise every target
column to the empty string, then apply the claim-type rule, the constant
claim status, the ten 1:1 mappings, the combined random-check field and
the explicit empty validate-month. -/
def process_single_row (sourceRow : Row) : List (String × String) :=
  let m0 := target_columns.map fun c => (c, "")
  let m1 := setCol m0 "Claim Type" (get_claim_type sourceRow)
  let m2 := setCol m1 "Claim Status" "Failure"
  let m3 := field_mappings.foldl
    (fun acc tf => setCol acc tf.1 (safe_extract_value sourceRow tf.2)) m2
  let m4 := setCol m3 "Random check in customer warehouse"
    (combine_faulty_random sourceRow)
  setCol m4 "Validate Month" ""

/-- Whole-table schema mapping (`DataMapper.map_to_target_format`,
lines 52-69): row-for-row; the empty input yields the empty table, and
the final `astype(str)` pass is the identity on this string model. -/
def map_to_target_format (sourceRows : List Row) :
    List (List (String × String)) :=
  sourceRows.map process_single_row

/-- Evaluation of `process_single_row` on an arbitrary row: the result
is the 25 target columns in schema order with the derived values at the
mapped columns and the empty string everywhere else. -/
theorem process_single_row_eval (row : Row) :
    process_single_row row =
      [("Picture", ""), ("Production Type", ""),
       ("Claim Type", get_claim_type row),
       ("Vendor", safe_extract_value row "Supplier Name"),
       ("Claim No.", safe_extract_value row "Claim no"),
       ("Claim Date", safe_extract_value row "Date of decision"),
       ("Inspection Date", ""),
       ("Customer", safe_extract_value row "customer_name"),
       ("Dept.", safe_extract_value row "Dept."), ("FID", ""),
       ("TEAM", ""), ("QC Trip Leader", ""),
       ("Style NO.", safe_extract_value row "Style No"),
       ("Order No.", safe_extract_value row "Order No"),
       ("Article No.", safe_extract_value row "Item No"),
       ("Relevant shipped Qty", safe_extract_value row "Delivered quantity"),
       ("Quality Digit (Market)", ""), ("Defect Code", ""),
       ("Claim Reason", safe_extract_value row "Description of faults"),
       ("QC Responsibility", ""), ("Claim Status", "Failure"),
       ("Validate Month", ""), ("Claim shipped Qty", ""),
       ("Random check in customer warehouse", combine_faulty_random row),
       ("Re-check in warehouse", "")] := by
  simp [process_single_row, target_columns, field_mappings, setCol]

section SanitiserLemmas

theorem stripL_eq_nil_iff (l : List Char) :
    stripL l = [] ↔ l.all isPySpace = true := by
  unfold stripL stripRightL stripLeftL
  constructor
  · intro h
    rw [List.all_eq_true]
    intro x hx
    rw [← List.takeWhile_append_dropWhile (p := isPySpace) (l := l)] at hx
    rcases List.mem_append.mp hx with h1 | h2
    · exact List.mem_takeWhile_imp h1
    · rw [List.reverse_eq_nil_iff, List.dropWhile_eq_nil_iff] at h
      exact h x (List.mem_reverse.mpr h2)
  · intro h
    have h1 : l.dropWhile isPySpace = [] := by
      rw [List.dropWhile_eq_nil_iff]
      exact fun x hx => List.all_eq_true.mp h x hx
    rw [h1]
    rfl

theorem pyStrip_eq_empty_iff (v : String) :
    pyStrip v = "" ↔ v.data.all isPySpace = true := by
  unfold pyStrip
  rw [← stripL_eq_nil_iff]
  constructor
  · intro h
    exact congrArg String.data h
  · intro h
    rw [h]

/-- The sanitiser never emits a value containing the sentinel: its
output is empty or a stripped value that was checked against the
sentinel before stripping, and stripping cannot create an occurrence. -/
theorem safe_extract_no_marker (row : Row) (c : String) :
    safe_extract_value row c = "" ∨
    pyIn "Not extracted" (safe_extract_value row c) = false := by
  unfold safe_extract_value
  cases hv : row c with
  | none => left; rfl
  | some v =>
    cases h1 : pyIn "Not extracted" v with
    | true => left; simp [h1]
    | false =>
      by_cases h2 : pyStrip v = ""
      · left; simp [h1, h2]
      · right
        simp only [h1, Bool.false_eq_true, if_false, if_neg h2]
        cases h3 : pyIn "Not extracted" (pyStrip v) with
        | false => rfl
        | true => exact absurd (pyIn_pyStrip h3) (by simp [h1])

end SanitiserLemmas

/-- C3: the sanitiser `safe_extract_value` returns the empty string
when the field is absent from the record, when the raw value contains
the sentinel `"Not extracted"` as a substring, or when the raw value is
empty or whitespace-only; in every other case it returns the raw value
with leading and trailing whitespace removed. -/
theorem c3_safe_extract_cases (row : Row) (columnName : String) :
    (row columnName = none → safe_extract_value row columnName = "") ∧
    (∀ v, row columnName = some v → pyIn "Not extracted" v = true →
      safe_extract_value row columnName = "") ∧
    (∀ v, row columnName = some v → v.data.all isPySpace = true →
      safe_extract_value row columnName = "") ∧
    (∀ v, row columnName = some v → pyIn "Not extracted" v = false →
      v.data.all isPySpace = false →
      safe_extract_value row columnName = pyStrip v) := by
  unfold safe_extract_value
  refine ⟨?_, ?_, ?_, ?_⟩
  · intro h
    rw [h]
  · intro v h hmark
    rw [h]
    simp [hmark]
  · intro v h hsp
    rw [h]
    have he : pyStrip v = "" := (pyStrip_eq_empty_iff v).mpr hsp
    by_cases hm : pyIn "Not extracted" v <;> simp [hm, he]
  · intro v h hmark hsp
    rw [h]
    have hne : ¬ pyStrip v = "" := by
      rw [pyStrip_eq_empty_iff]
      simp [hsp]
    simp [hmark, hne]

/-- Example row for the C3 witness. -/
def c3ExRow : Row := fun c => if c = "A" then some " hello " else none

/-- C3 witness: on a record holding `" hello "` under `"A"`, the
sanitiser returns the trimmed value. -/
theorem c3_safe_extract_cases_witness :
    safe_extract_value c3ExRow "A" = "hello" := by
  have h := (c3_safe_extract_cases c3ExRow "A").2.2.2 " hello "
    (by decide) (by decide) (by decide)
  rw [h]
  decide

/-- Example row for the C9 witness: faulty = 5, random = 80. -/
def c9RowPresent : Row := fun c =>
  if c = "Faulty pcs" then some "5"
  else if c = "Random quantity" then some "80" else none

/-- Example row for the C9 witness: faulty carries the sentinel. -/
def c9RowSentinel : Row := fun c =>
  if c = "Faulty pcs" then some "Not extracted"
  else if c = "Random quantity" then some "80" else none

/-- C9: the combined random-check field is `faulty ++ "/" ++ random`
exactly when both sanitised values are non-empty and neither equals the
sentinel, and the empty string in every other case. -/
theorem c9_combine_faulty_random_spec (row : Row) :
    ((safe_extract_value row "Faulty pcs" ≠ "" ∧
        safe_extract_value row "Random quantity" ≠ "" ∧
        safe_extract_value row "Faulty pcs" ≠ "Not extracted" ∧
        safe_extract_value row "Random quantity" ≠ "Not extracted") →
      combine_faulty_random row =
        safe_extract_value row "Faulty pcs" ++ "/" ++
          safe_extract_value row "Random quantity") ∧
    (¬(safe_extract_value row "Faulty pcs" ≠ "" ∧
        safe_extract_value row "Random quantity" ≠ "" ∧
        safe_extract_value row "Faulty pcs" ≠ "Not extracted" ∧
        safe_extract_value row "Random quantity" ≠ "Not extracted") →
      combine_faulty_random row = "") := by
  unfold combine_faulty_random
  constructor
  · intro h
    rw [if_pos h]
  · intro h
    rw [if_neg h]

/-- C9 witness: faulty = "5", random = "80" yields "5/80"; a
sentinel-bearing faulty count yields the empty string. -/
theorem c9_combine_faulty_random_spec_witness :
    combine_faulty_random c9RowPresent = "5/80" ∧
    combine_faulty_random c9RowSentinel = "" := by
  constructor
  · have h := (c9_combine_faulty_random_spec c9RowPresent).1 (by decide)
    rw [h]
    decide
  · exact (c9_combine_faulty_random_spec c9RowSentinel).2 (by decide)

/-- Row whose decision field holds the bare sentinel, for the C2
counterexample. -/
def c2Row : Row := fun c => if c = "Decision" then some "Not extracted" else none

/-- C2 counterexample: for a source row whose decision value contains
the `"Not extracted"` marker, the claim predicts Claim Type `""`, but
the code returns `"Claim"`: sanitisation precedes the marker test, so
the marker-bearing decision sanitises to the empty string and takes the
default branch. -/
theorem c2_counterexample :
    pyIn "Not extracted" "Not extracted" = true ∧
    get_claim_type c2Row = "Claim" ∧ get_claim_type c2Row ≠ "" := by
  refine ⟨by decide, by decide, by decide⟩

/-- C2 amended: the claim-type of a row is `"Complaint"` exactly when
the sanitised decision equals `"QD45 (Q)"` or `"Q"`, and `"Claim"` in
every other case; the code's empty-string branch for marker-bearing
sanitised decisions is unreachable because the sanitiser already maps
marker-bearing values to the empty string. -/
theorem c2_claim_type_characterization (row : Row) :
    get_claim_type row =
      if safe_extract_value row "Decision" = "QD45 (Q)" ∨
          safe_extract_value row "Decision" = "Q" then "Complaint"
      else "Claim" := by
  unfold get_claim_type
  by_cases h0 : safe_extract_value row "Decision" = ""
  · rw [if_pos h0, h0]
    rw [if_neg (by decide : ¬((("" : String) = "QD45 (Q)") ∨ (("" : String) = "Q")))]
  · rw [if_neg h0]
    rcases safe_extract_no_marker row "Decision" with h | h
    · exact absurd h h0
    · rw [if_neg (by simp [h])]

/-- The 11 target columns not covered by any mapping rule
(`process_single_row` comment, lines 104-105). -/
def unmapped_columns : List String :=
  ["Picture", "Production Type", "Inspection Date", "FID", "TEAM",
   "QC Trip Leader", "Quality Digit (Market)", "Defect Code",
   "QC Responsibility", "Claim shipped Qty", "Re-check in warehouse"]

/-- C5: every target row carries exactly the fixed 25 columns in schema
order, every column not covered by a mapping rule holds the empty
string, the explicitly-emptied Validate Month is empty, and Claim
Status is the constant `"Failure"`. -/
theorem c5_target_row_invariants (row : Row) :
    (process_single_row row).map Prod.fst = target_columns ∧
    (process_single_row row).length = 25 ∧
    (process_single_row row).lookup "Claim Status" = some "Failure" ∧
    (∀ c ∈ unmapped_columns, (process_single_row row).lookup c = some "") ∧
    (process_single_row row).lookup "Validate Month" = some "" := by
  rw [process_single_row_eval]
  refine ⟨by simp [target_columns], rfl, by simp [List.lookup], ?_,
    by simp [List.lookup]⟩
  intro c hc
  fin_cases hc <;> simp [List.lookup]

/-- The empty source row, for witnesses. -/
def emptyRow : Row := fun _ => none

theorem length_dropWhile_le' (p : Char → Bool) (l : List Char) :
    (l.dropWhile p).length ≤ l.length :=
  (List.dropWhile_sublist (p := p) (l := l)).length_le

/-- Python `re.sub(r'\s+', ' ', s)` core: each maximal whitespace run
becomes one space. -/
def collapseWsL : List Char → List Char
  | [] => []
  | c :: rest =>
    if isPySpace c then ' ' :: collapseWsL (rest.dropWhile isPySpace)
    else c :: collapseWsL rest
termination_by l => l.length
decreasing_by
  · simp only [List.length_cons]
    exact Nat.lt_succ_of_le (length_dropWhile_le' isPySpace _)
  · simp

/-- Python `re.sub(r'\s+', ' ', s)` on strings. -/
def collapseWs (s : String) : String := ⟨collapseWsL s.data⟩

/-- Python `re.sub(r'\n\s*', ' ', s)` core: each newline together with
the whitespace run following it becomes one space. -/
def subNewlineWsL : List Char → List Char
  | [] => []
  | c :: rest =>
    if c = '\n' then ' ' :: subNewlineWsL (rest.dropWhile isPySpace)
    else c :: subNewlineWsL rest
termination_by l => l.length
decreasing_by
  · simp only [List.length_cons]
    exact Nat.lt_succ_of_le (length_dropWhile_le' isPySpace _)
  · simp

/-- Python `re.sub(r'\n\s*', ' ', s)` on strings. -/
def subNewlineWs (s : String) : String := ⟨subNewlineWsL s.data⟩

/-- Python `re.sub(r'[\|:\-\*]', '', s)`: delete every occurrence of
those four characters. -/
def stripPunct (s : String) : String :=
  ⟨s.data.filter fun c => !(c = '|' || c = ':' || c = '-' || c = '*')⟩

/-- Python `re.sub(r'\s+\d+$', '', s)`: delete a trailing digit run
preceded by a whitespace run, when both are present at the end. -/
def stripTrailingNum (s : String) : String :=
  let r := s.data.reverse
  let digs := r.takeWhile Char.isDigit
  if digs ≠ [] ∧ (r.drop digs.length).takeWhile isPySpace ≠ [] then
    ⟨((r.drop digs.length).dropWhile isPySpace).reverse⟩
  else s

/-- Python `re.match(r'^\d+$', s)` as a predicate: non-empty and all
digits (its argument has been whitespace-collapsed by the source, so
the dollar-before-final-newline subtlety cannot arise). -/
def isAllDigits (s : String) : Bool :=
  !s.data.isEmpty && s.data.all Char.isDigit

/-- Python `str.split()` (no separator): fields between whitespace
runs, empty fields dropped. -/
def splitWsL : List Char → List (List Char)
  | [] => []
  | c :: rest =>
    if _h : isPySpace c then splitWsL rest
    else ((c :: rest).takeWhile fun x => !isPySpace x) ::
      splitWsL ((c :: rest).dropWhile fun x => !isPySpace x)
termination_by l => l.length
decreasing_by
  · simp
  · rw [List.dropWhile_cons_of_pos (by simpa using _h)]
    simp only [List.length_cons]
    exact Nat.lt_succ_of_le (length_dropWhile_le' _ _)

/-- Python `re.escape`: ASCII alphanumerics and underscore pass
through, every other character gets a backslash. -/
def pyReEscape (s : String) : String :=
  ⟨s.data.flatMap fun c => if c.isAlphanum || c = '_' then [c] else ['\\', c]⟩

/-- Python `int(...)` on a decimal string.  Every use site converts a
`\d+` capture, for which conversion cannot fail; `0` stands for the
out-of-contract inputs an arbitrary abstract engine could supply. -/
def pyIntNat (s : String) : Nat := s.toNat?.getD 0

/-- The 13-field flat record produced by the extractors
(`UnifiedPDFProcessor.required_fields`, lines 163-168). -/
structure FlatRecord where
  claimNo : String
  decision : String
  styleNo : String
  itemNo : String
  deliveredQuantity : String
  supplierName : String
  dept : String
  orderNo : String
  randomQuantity : String
  faultyPcs : String
  dateOfDecision : String
  descriptionOfFaults : String
  customerName : String
deriving DecidableEq

/-- View a flat record as a string-keyed row under the source column
names, as the `DataFrame` hands rows to the mapper. -/
def FlatRecord.toRow (r : FlatRecord) : Row := fun c =>
  if c = "Claim no" then some r.claimNo
  else if c = "Decision" then some r.decision
  else if c = "Style No" then some r.styleNo
  else if c = "Item No" then some r.itemNo
  else if c = "Delivered quantity" then some r.deliveredQuantity
  else if c = "Supplier Name" then some r.supplierName
  else if c = "Dept." then some r.dept
  else if c = "Order No" then some r.orderNo
  else if c = "Random quantity" then some r.randomQuantity
  else if c = "Faulty pcs" then some r.faultyPcs
  else if c = "Date of decision" then some r.dateOfDecision
  else if c = "Description of faults" then some r.descriptionOfFaults
  else if c = "customer_name" then some r.customerName
  else none

/-- The part of a Python `re.Match` object the source consumes:
character offsets of the match, the matched text (`group(0)`) and the
captured groups (`group(i)`; `none` for an unmatched optional group). -/
structure ReMatch where
  matchStart : Nat
  matchStop : Nat
  group0 : String
  groups : List (Option String)
deriving DecidableEq

/-- Abstract interface to the external `re.search` collaborator; the
arguments are the pattern, the IGNORECASE flag, the DOTALL flag and the
text. -/
structure RegexEngine where
  search : String → Bool → Bool → String → Option ReMatch

/-- Python `match.group(i)` for `i ≥ 1`; missing groups default to the
empty string (every source call site accesses groups its matched
pattern guarantees to exist). -/
def mGroup (m : ReMatch) (i : Nat) : String :=
  (m.groups.getD (i - 1) none).getD ""

/-- C5 witness: on the empty row, the uncovered column `"Picture"` is
the empty string. -/
theorem c5_target_row_invariants_witness :
    (process_single_row emptyRow).lookup "Picture" = some "" :=
  (c5_target_row_invariants emptyRow).2.2.2.1 "Picture" (by decide)

/-! Pattern strings, verbatim from the source (raw-string backslashes
doubled for Lean; braces spelled with their character-code escapes). -/

def bph_claim_pat1 : String := "Reclamation\\s+ID\\s*[\\|:]?\\s*(\\d+)"

def bph_claim_pat2 : String :=
  "Reclamation\\s+details\\s+report\\s+with\\s+reclamation\\s+ID\\s*=\\s*(\\d+)"

def bph_style_pat1 : String := "Style\\s+No\\s*[\\|:]?\\s*(\\d+)"

def bph_style_pat2 : String := "Style\\s+No\\s+Item\\s+No[^\\d]*(\\d+)\\s+(\\d+)"

def bph_item_pat : String := "Item\\s+No\\s*[\\|:]?\\s*(\\d+)"

def bph_qty_pat1 : String := "Delivered\\s+quantity\\s*[\\|:]?\\s*(\\d+)"

def bph_qty_pat2 : String := "Delivered\\s+quantity\\s+Office[^\\d]*(\\d+)"

def bph_supplier_pat1 : String :=
  "OI China\\s+(\\d\x7b6\x7d)\\s+([^\\n]+?)\\s*Dept\\./Subdept\\."

def bph_supplier_pat2 : String :=
  "OI\\s+China\\s+(\\d\x7b6\x7d)\\s+([^\\n]+?)\\s*Dept\\./Subdept\\."

def bph_supplier_pat3 : String :=
  "OI China\\s+(\\d\x7b6\x7d)\\s+([^\\n]+?)\\s+Dept\\./Subdept\\."

def bph_supplier_pat4 : String :=
  "OI\\s+China\\s+(\\d\x7b6\x7d)\\s+([^\\n]+?)\\s+Dept\\./Subdept\\."

def bph_dept_pat1 : String := "Dept\\./Subdept\\.\\s*[\\|:]?\\s*([\\d\\.]+)"

def bph_dept_pat2 : String :=
  "Dept\\./Subdept\\.\\s+Order\\s+No[^\\d]*([\\d\\.]+)\\s+(\\d+)"

def bph_order_pat : String := "Order\\s+No\\s*[\\|:]?\\s*(\\d+)"

def bph_sample_faulty_pat : String :=
  "Random\\s+sample\\s*Faulty\\s+pieces\\s*(\\d+)\\s*(\\d+)"

def bph_decision_table_pat : String :=
  "Decided by\\s+Date of decision\\s+Decision"

def line_plus_pat : String := "[^\\n]+"

def line_star_pat : String := "[^\\n]*"

def date_pat : String := "(\\d+/\\d+/\\d+)"

def bph_date_label_pat : String := "Date of decision\\s+(\\d+/\\d+/\\d+)"

def bph_decided_by_pat : String := "Decided by[^\\n]*"

def bph_comment_pat : String :=
  "Comment\\s+for\\s+market[^\\n]*([\\s\\S]*?)(?=Samples|Rework\\s+details|Reclamation\\s+details\\s+report|Printed\\s+on|$)"

def bph_status_pre_pat : String := "Reclamation\\s+ID\\s*[\\s\\S]*?"

def bph_status_post_pat : String :=
  "\\s+([A-Za-z0-9\\s\\(\\)]+?)(?=\\s*\\n|\\s*Style\\s+No|\\s*Date\\s+of\\s+delivery)"

def ovh_otto_pat : String := "(\\d\x7b7\x7d)\\s+OTTO"

def ovh_incoming_pat : String :=
  "Buyin\\s+Incoming\\s+date\\s*[\\d/]+\\s*([^\\n]+?)\\s*No\\.\\s+bowls"

def ovh_dept_pat : String := "dept\\.\\s*([\\d\\.]+)"

def ovh_cat_pat : String := "Cat\\.-No\\./Page/Block\\s*([^\\n]*?)(\\d\x7b8\x7d)"

def ovh_style_section_pat : String := "Style\\s+No\\.\\s*([^\\n]+)"

def ovh_delivered_pat : String := "([\\d,]+)\\s+[A-Z]\\s+\\d+"

def ovh_order_pat : String := "[A-Z]\\s+(\\d\x7b6\x7d)"

def ovh_style_two_pat : String :=
  "Style\\s+No\\.\\s*\\n\\s*([^\\n]+?)\\s*\\n\\s*Inspection result"

def ovh_style_inner_pat : String := "\\d\x7b6\x7d\\s+([^\\s]+)"

def ovh_pcs_pat : String := "pcs/\\s*set\\s*(\\d+)\\s*(\\d+)(?:\\s*(\\d+))?"

def ovh_deci_date_pat : String :=
  "([A-Z])\\s*/\\s*([A-Z])\\s*/\\s*[^/]+\\s*/\\s*(\\d\x7b1,2\x7d/\\d\x7b1,2\x7d/\\d\x7b2\x7d)"

def ovh_date_pat : String := "(\\d\x7b1,2\x7d/\\d\x7b1,2\x7d/\\d\x7b2\x7d)"

def ovh_deci_tail_pat : String :=
  "([A-Z])\\s*/\\s*([A-Z])\\s*/\\s*[^/]+\\s*/\\s*$"

def ovh_desc_pat : String :=
  "Description\\s+of\\s+faults\\s*([\\s\\S]*?)(?=\\s*Rework)"

/-- BPH family field extraction, transcribed block by block from
`UnifiedPDFProcessor.extract_bph_data` (lines 212-351).  The regular
expression engine is the abstract external collaborator `eng`.  The
source writes each field of its result dict at most once, so the
record is assembled from the per-field cascade results; the `except`
path (line 348) is unreachable in this pure model. -/
def extract_bph_data (eng : RegexEngine) (text : String) : FlatRecord :=
  let claimMatch :=
    match eng.search bph_claim_pat1 true false text with
    | some m => some m
    | none => eng.search bph_claim_pat2 true false text
  let claimV := match claimMatch with
    | some m => mGroup m 1
    | none => "Not extracted"
  let styleMatch :=
    match eng.search bph_style_pat1 true false text with
    | some m => some m
    | none => eng.search bph_style_pat2 true false text
  let styleV := match styleMatch with
    | some m => mGroup m 1
    | none => "Not extracted"
  let itemV := match eng.search bph_item_pat true false text with
    | some m => mGroup m 1
    | none =>
      match styleMatch with
      | some m => if m.groups.length > 1 then mGroup m 2 else "Not extracted"
      | none => "Not extracted"
  let qtyV := match (match eng.search bph_qty_pat1 true false text with
      | some m => some m
      | none => eng.search bph_qty_pat2 true false text) with
    | some m =>
      if (mGroup m 1).length = 6 then "Not extracted" else mGroup m 1
    | none => "Not extracted"
  let supplierMatch :=
    match eng.search bph_supplier_pat1 true false text with
    | some m => some m
    | none =>
      match eng.search bph_supplier_pat2 true false text with
      | some m => some m
      | none =>
        match eng.search bph_supplier_pat3 true false text with
        | some m => some m
        | none => eng.search bph_supplier_pat4 true false text
  let supplierV := match supplierMatch with
    | some m => collapseWs (pyStrip (mGroup m 2))
    | none => "Not extracted"
  let deptMatch :=
    match eng.search bph_dept_pat1 true false text with
    | some m => some m
    | none => eng.search bph_dept_pat2 true false text
  let deptV := match deptMatch with
    | some m => mGroup m 1
    | none => "Not extracted"
  let orderV := match eng.search bph_order_pat true false text with
    | some m => mGroup m 1
    | none =>
      match deptMatch with
      | some m => if m.groups.length > 1 then mGroup m 2 else "Not extracted"
      | none => "Not extracted"
  let sampleFaulty := eng.search bph_sample_faulty_pat false false text
  let randomV := match sampleFaulty with
    | some m => mGroup m 1
    | none => "Not extracted"
  let faultyV := match sampleFaulty with
    | some m => mGroup m 2
    | none => "Not extracted"
  let dateV1 := match eng.search bph_decision_table_pat true false text with
    | some m =>
      match eng.search line_plus_pat false false ⟨text.data.drop m.matchStop⟩ with
      | some m2 =>
        match eng.search date_pat false false m2.group0 with
        | some m3 => convert_date_format (mGroup m3 1) "mdy"
        | none => "Not extracted"
      | none => "Not extracted"
    | none => "Not extracted"
  let dateV2 := if dateV1 = "Not extracted" then
      match eng.search bph_date_label_pat true false text with
      | some m => convert_date_format (mGroup m 1) "mdy"
      | none => "Not extracted"
    else dateV1
  let dateV3 := if dateV2 = "Not extracted" then
      match eng.search bph_decided_by_pat true false text with
      | some m =>
        match eng.search line_star_pat false false ⟨text.data.drop m.matchStop⟩ with
        | some m2 =>
          match eng.search date_pat false false (pyStrip m2.group0) with
          | some m3 => convert_date_format (mGroup m3 1) "mdy"
          | none => "Not extracted"
        | none => "Not extracted"
      | none => "Not extracted"
    else dateV2
  let descV := match eng.search bph_comment_pat true false text with
    | some m => pyStrip (collapseWs (subNewlineWs (pyStrip (mGroup m 1))))
    | none => "Not extracted"
  let decisionV := if claimV ≠ "Not extracted" then
      match eng.search
          (bph_status_pre_pat ++ pyReEscape claimV ++ bph_status_post_pat)
          true true text with
      | some m =>
        let st := stripTrailingNum
          (pyStrip (collapseWs (stripPunct (pyStrip (mGroup m 1)))))
        if st ≠ "" ∧ ¬ isAllDigits st then st else "Not extracted"
      | none => "Not extracted"
    else "Not extracted"
  { claimNo := claimV, decision := decisionV, styleNo := styleV,
    itemNo := itemV, deliveredQuantity := qtyV, supplierName := supplierV,
    dept := deptV, orderNo := orderV, randomQuantity := randomV,
    faultyPcs := faultyV, dateOfDecision := dateV3,
    descriptionOfFaults := descV, customerName := "BPH" }

/-- OVH family field extraction, transcribed block by block from
`UnifiedPDFProcessor.extract_ovh_data` (lines 353-459); same
conventions as `extract_bph_data`.  Note the source's step 6 reuses
the `Style No.` section match object of step 5, while step 7 issues a
fresh search with the same pattern. -/
def extract_ovh_data (eng : RegexEngine) (text : String) : FlatRecord :=
  let claimV := match eng.search ovh_otto_pat false false text with
    | some m => mGroup m 1
    | none => "Not extracted"
  let supplierV := match eng.search ovh_incoming_pat true false text with
    | some m => collapseWs (pyStrip (mGroup m 1))
    | none => "Not extracted"
  let deptV := match eng.search ovh_dept_pat true false text with
    | some m => mGroup m 1
    | none => "Not extracted"
  let itemV := match eng.search ovh_cat_pat true false text with
    | some m => mGroup m 2
    | none => "Not extracted"
  let styleSection := eng.search ovh_style_section_pat true false text
  let deliveredV := match styleSection with
    | some m =>
      match eng.search ovh_delivered_pat false false (mGroup m 1) with
      | some m2 => (⟨(mGroup m2 1).data.filter fun c => c ≠ ','⟩ : String)
      | none => "Not extracted"
    | none => "Not extracted"
  let orderV := match styleSection with
    | some m =>
      match eng.search ovh_order_pat false false (mGroup m 1) with
      | some m2 => mGroup m2 1
      | none => "Not extracted"
    | none => "Not extracted"
  let styleV := match eng.search ovh_style_two_pat true false text with
    | some m =>
      match (splitWsL (pyStrip (mGroup m 1)).data).getLast? with
      | some w => (⟨w⟩ : String)
      | none => "Not extracted"
    | none =>
      match eng.search ovh_style_section_pat true false text with
      | some m =>
        match eng.search ovh_style_inner_pat false false (pyStrip (mGroup m 1)) with
        | some m2 => mGroup m2 1
        | none =>
          match (splitWsL (pyStrip (mGroup m 1)).data).getLast? with
          | some w => (⟨w⟩ : String)
          | none => "Not extracted"
      | none => "Not extracted"
  let pcsMatch := eng.search ovh_pcs_pat true false text
  let randomV := match pcsMatch with
    | some m =>
      match m.groups.getD 2 none with
      | some g3 =>
        if g3 ≠ "" then
          toString (pyIntNat (mGroup m 1) + pyIntNat (mGroup m 2))
        else mGroup m 1
      | none => mGroup m 1
    | none => "Not extracted"
  let faultyV := match pcsMatch with
    | some m =>
      match m.groups.getD 2 none with
      | some g3 => if g3 ≠ "" then g3 else mGroup m 2
      | none => mGroup m 2
    | none => "Not extracted"
  let deciDate := match eng.search ovh_deci_date_pat false false text with
    | some m => (mGroup m 2, convert_date_format (mGroup m 3) "dmy")
    | none =>
      match eng.search ovh_date_pat false false text with
      | some m =>
        match eng.search ovh_deci_tail_pat false false
            ⟨text.data.take m.matchStart⟩ with
        | some m2 => (mGroup m2 2, convert_date_format (mGroup m 1) "dmy")
        | none => ("Not extracted", "Not extracted")
      | none => ("Not extracted", "Not extracted")
  let descV := match eng.search ovh_desc_pat true false text with
    | some m => collapseWs (subNewlineWs (pyStrip (mGroup m 1)))
    | none => "Not extracted"
  { claimNo := claimV, decision := deciDate.1, styleNo := styleV,
    itemNo := itemV, deliveredQuantity := deliveredV,
    supplierName := supplierV, dept := deptV, orderNo := orderV,
    randomQuantity := randomV, faultyPcs := faultyV,
    dateOfDecision := deciDate.2, descriptionOfFaults := descV,
    customerName := "OVH" }

/-- Filename-based classification (`determine_doc_type`,
lines 172-180): upper-cased filename compared against the two known
leading markers. -/
def determine_doc_type (filename : String) : String :=
  if isPre "RDR".data filename.toUpper.data then "BPH"
  else if isPre "CR".data filename.toUpper.data then "OVH"
  else "UNKNOWN"

/-- The record synthesised when text extraction fails (lines 488-492):
every required field carries the sentinel `"Failed to extract text"`,
then the customer tag is overwritten with `"Unknown"`. -/
def extraction_failure_record : FlatRecord :=
  { claimNo := "Failed to extract text",
    decision := "Failed to extract text",
    styleNo := "Failed to extract text",
    itemNo := "Failed to extract text",
    deliveredQuantity := "Failed to extract text",
    supplierName := "Failed to extract text",
    dept := "Failed to extract text",
    orderNo := "Failed to extract text",
    randomQuantity := "Failed to extract text",
    faultyPcs := "Failed to extract text",
    dateOfDecision := "Failed to extract text",
    descriptionOfFaults := "Failed to extract text",
    customerName := "Unknown" }

/-- Per-document processing (`extract_data_from_pdf`, lines 484-507):
`text` is the result of the external text extractor, whose total
failure is reported as the sentinel string; otherwise classify by
filename, then fall back to content markers, then default to BPH. -/
def extract_data_from_pdf (eng : RegexEngine) (text filename : String) :
    FlatRecord :=
  if text = "Failed to extract text" then extraction_failure_record
  else if determine_doc_type filename = "BPH" then extract_bph_data eng text
  else if determine_doc_type filename = "OVH" then extract_ovh_data eng text
  else if pyIn "Reclamation" text && pyIn "Reclamation ID" text then
    extract_bph_data eng text
  else if pyIn "OTTO" text && pyIn "Control" text then
    extract_ovh_data eng text
  else extract_bph_data eng text

/-- Document family, as the spec's classifier contract names it. -/
inductive Family where
  | bph : Family
  | ovh : Family
  | unknownFam : Family
deriving DecidableEq

/-- The dispatch rule exactly as claim C4 states it: case-insensitive
filename markers first (leading `RDR` picks BPH, leading `CR` picks
OVH), then the content-marker tests, then the BPH default.  Written
from the claim's wording, to be compared with the code's
`extract_data_from_pdf`. -/
def claimed_dispatch (filename text : String) : Family :=
  if isPre "RDR".data filename.toUpper.data then Family.bph
  else if isPre "CR".data filename.toUpper.data then Family.ovh
  else if pyIn "Reclamation" text && pyIn "Reclamation ID" text then Family.bph
  else if pyIn "OTTO" text && pyIn "Control" text then Family.ovh
  else Family.bph

/-- Which extractor a family denotes (the Unknown family has no
extractor; its arm is the failure record and is shown unreachable). -/
def family_extract (eng : RegexEngine) (text : String) : Family → FlatRecord
  | Family.bph => extract_bph_data eng text
  | Family.ovh => extract_ovh_data eng text
  | Family.unknownFam => extraction_failure_record

/-- C4: for every document with successfully extracted text, the
extractor actually invoked by `extract_data_from_pdf` is the one the
claimed dispatch cascade selects, and that cascade never selects the
Unknown family. -/
theorem c4_dispatch_follows_classifier (eng : RegexEngine)
    (text filename : String) (h : text ≠ "Failed to extract text") :
    claimed_dispatch filename text ≠ Family.unknownFam ∧
    extract_data_from_pdf eng text filename
      = family_extract eng text (claimed_dispatch filename text) := by
  constructor
  · unfold claimed_dispatch
    split_ifs <;> simp
  · unfold extract_data_from_pdf claimed_dispatch determine_doc_type
      family_extract
    rw [if_neg h]
    by_cases h1 : isPre "RDR".data filename.toUpper.data = true
    · simp [h1]
    · by_cases h2 : isPre "CR".data filename.toUpper.data = true
      · simp [h1, h2]
      · by_cases h3 :
            (pyIn "Reclamation" text && pyIn "Reclamation ID" text) = true
        · simp [h1, h2, h3]
        · by_cases h4 : (pyIn "OTTO" text && pyIn "Control" text) = true
          · simp [h1, h2, h3, h4]
          · simp [h1, h2, h3, h4]

/-- The trivial engine: no pattern ever matches. -/
def noMatchEngine : RegexEngine := ⟨fun _ _ _ _ => none⟩

/-- C4 witness: on filename `RDR_1.pdf` with ordinary text the BPH
extractor is dispatched. -/
theorem c4_dispatch_follows_classifier_witness :
    claimed_dispatch "RDR_1.pdf" "some text" ≠ Family.unknownFam ∧
    extract_data_from_pdf noMatchEngine "some text" "RDR_1.pdf"
      = family_extract noMatchEngine "some text"
          (claimed_dispatch "RDR_1.pdf" "some text") :=
  c4_dispatch_follows_classifier noMatchEngine "some text" "RDR_1.pdf"
    (by decide)

/-- Text on which Python's regex engine exhibits the C7 divergence: the
individual Style No pattern matches `Style No 777`, the individual
Item No pattern fails to match (the letters `abc` block its required
digit), and the combined two-number pattern matches
`Style No Item No abc 123 456`. -/
def c7Text : String := "Style No 777\nStyle No Item No abc 123 456"

/-- Engine recording the results Python's `re.search` produces on
`c7Text` for the style/item patterns (offsets and `group(0)` are not
consumed by these fields and are reported as zero/empty). -/
def c7Engine : RegexEngine :=
  ⟨fun pat _ _ t =>
    if pat = bph_style_pat1 ∧ t = c7Text then
      some ⟨0, 0, "", [some "777"]⟩
    else if pat = bph_style_pat2 ∧ t = c7Text then
      some ⟨0, 0, "", [some "123", some "456"]⟩
    else none⟩

/-- C7 counterexample: with the individual Style No pattern matching,
the individual Item No pattern failing and the combined pattern
matching — the situation Python's regex engine produces on `c7Text` —
the claim predicts the failed item field is filled with the combined
second number `"456"`, but the code leaves the sentinel, because the
combined pattern is only consulted when the Style No pattern fails. -/
theorem c7_counterexample :
    c7Engine.search bph_item_pat true false c7Text = none ∧
    c7Engine.search bph_style_pat2 true false c7Text
      = some ⟨0, 0, "", [some "123", some "456"]⟩ ∧
    (extract_bph_data c7Engine c7Text).itemNo = "Not extracted" ∧
    (extract_bph_data c7Engine c7Text).itemNo ≠ "456" := by
  refine ⟨by decide, by decide, by decide, by decide⟩

/-- C7 amended: the combined two-number pattern is consulted only when
the individual Style No pattern fails.  When it is consulted and
matches, its first capture fills the style field and its second fills
the item field provided the individual Item No pattern also failed;
when the individual Style No pattern matches, a failing Item No
pattern leaves the item field `"Not extracted"` regardless of the
combined pattern. -/
theorem c7_style_item_combined_fallback (eng : RegexEngine) (text : String) :
    (∀ m a b, eng.search bph_style_pat1 true false text = none →
      eng.search bph_style_pat2 true false text = some m →
      m.groups = [some a, some b] →
      (extract_bph_data eng text).styleNo = a ∧
      (eng.search bph_item_pat true false text = none →
        (extract_bph_data eng text).itemNo = b)) ∧
    (∀ m1, eng.search bph_style_pat1 true false text = some m1 →
      m1.groups.length ≤ 1 →
      eng.search bph_item_pat true false text = none →
      (extract_bph_data eng text).itemNo = "Not extracted") := by
  constructor
  · intro m a b h1 h2 hg
    constructor
    · simp [extract_bph_data, h1, h2, hg, mGroup]
    · intro h3
      simp [extract_bph_data, h1, h2, h3, hg, mGroup]
  · intro m1 h1 hlen h3
    simp [extract_bph_data, h1, h3, mGroup]
    intro hgt
    omega

/-- Text for the C7 witness: the individual Style No and Item No
patterns both fail on it and the combined pattern matches. -/
def c7wText : String := "Style No Item No abc 123 456"

/-- Engine recording Python's `re.search` results on `c7wText`. -/
def c7wEngine : RegexEngine :=
  ⟨fun pat _ _ t =>
    if pat = bph_style_pat2 ∧ t = c7wText then
      some ⟨0, 0, "", [some "123", some "456"]⟩
    else none⟩

/-- C7 witness: when the individual style pattern fails and the
combined pattern matches, the split fills both fields. -/
theorem c7_style_item_combined_fallback_witness :
    (extract_bph_data c7wEngine c7wText).styleNo = "123" ∧
    (extract_bph_data c7wEngine c7wText).itemNo = "456" := by
  have h := (c7_style_item_combined_fallback c7wEngine c7wText).1
    ⟨0, 0, "", [some "123", some "456"]⟩ "123" "456"
    (by decide) (by decide) (by decide)
  exact ⟨h.1, h.2 (by decide)⟩

/-- C8: in BPH extraction, when a delivered-quantity pattern matches
(the primary pattern, or the fallback after the primary failed), a
captured token of length exactly six is rejected back to the sentinel
`"Not extracted"`, and a token of any other length is stored as the
delivered-quantity value. -/
theorem c8_delivered_quantity_six_digit_reject (eng : RegexEngine)
    (text : String) (m : ReMatch) (q : String)
    (hm : eng.search bph_qty_pat1 true false text = some m ∨
      (eng.search bph_qty_pat1 true false text = none ∧
        eng.search bph_qty_pat2 true false text = some m))
    (hg : m.groups = [some q]) :
    (extract_bph_data eng text).deliveredQuantity =
      if q.length = 6 then "Not extracted" else q := by
  rcases hm with h | ⟨h1, h2⟩
  · simp [extract_bph_data, h, hg, mGroup]
  · simp [extract_bph_data, h1, h2, hg, mGroup]

/-- Text for the C8 witness: a labelled six-digit quantity. -/
def c8Text : String := "Delivered quantity: 123456"

/-- Engine recording Python's `re.search` result on `c8Text` for the
primary delivered-quantity pattern. -/
def c8Engine : RegexEngine :=
  ⟨fun pat _ _ t =>
    if pat = bph_qty_pat1 ∧ t = c8Text then
      some ⟨0, 0, "", [some "123456"]⟩
    else none⟩

/-- C8 witness: the captured six-digit token `123456` is rejected. -/
theorem c8_delivered_quantity_six_digit_reject_witness :
    (extract_bph_data c8Engine c8Text).deliveredQuantity
      = "Not extracted" := by
  have h := c8_delivered_quantity_six_digit_reject c8Engine c8Text
    ⟨0, 0, "", [some "123456"]⟩ "123456" (Or.inl (by decide)) (by decide)
  rw [h]
  decide

/-- C1 counterexample: mapping the extraction-failure FlatRecord does
not blank the mapped columns as the claim states — the Vendor column of
the resulting target row holds the literal sentinel, because the
sanitiser strips only values containing `"Not extracted"` and the
failure sentinel is `"Failed to extract text"`. -/
theorem c1_counterexample :
    (process_single_row extraction_failure_record.toRow).lookup "Vendor"
      = some "Failed to extract text" ∧
    (process_single_row extraction_failure_record.toRow).lookup "Vendor"
      ≠ some "" := by
  refine ⟨by decide, by decide⟩

/-- C1 amended: a document whose text extraction fails entirely yields
the FlatRecord with every data field `"Failed to extract text"` and
customer tag `"Unknown"` (this part of the claim holds); mapping that
record yields Claim Status `"Failure"` and Claim Type `"Claim"` as
claimed, but the ten 1:1 mapped columns carry the literal failure
sentinel (Customer carries `"Unknown"`) rather than the empty string,
and the combined random-check column carries
`"Failed to extract text/Failed to extract text"`; only the unmapped
columns and Validate Month are empty. -/
theorem c1_extraction_failure_pipeline (eng : RegexEngine)
    (filename : String) :
    extract_data_from_pdf eng "Failed to extract text" filename
      = extraction_failure_record ∧
    ((["Claim no", "Decision", "Style No", "Item No",
        "Delivered quantity", "Supplier Name", "Dept.", "Order No",
        "Random quantity", "Faulty pcs", "Date of decision",
        "Description of faults"] : List String).all fun c =>
      extraction_failure_record.toRow c == some "Failed to extract text") ∧
    extraction_failure_record.toRow "customer_name" = some "Unknown" ∧
    process_single_row extraction_failure_record.toRow =
      [("Picture", ""), ("Production Type", ""), ("Claim Type", "Claim"),
       ("Vendor", "Failed to extract text"),
       ("Claim No.", "Failed to extract text"),
       ("Claim Date", "Failed to extract text"),
       ("Inspection Date", ""), ("Customer", "Unknown"),
       ("Dept.", "Failed to extract text"), ("FID", ""), ("TEAM", ""),
       ("QC Trip Leader", ""),
       ("Style NO.", "Failed to extract text"),
       ("Order No.", "Failed to extract text"),
       ("Article No.", "Failed to extract text"),
       ("Relevant shipped Qty", "Failed to extract text"),
       ("Quality Digit (Market)", ""), ("Defect Code", ""),
       ("Claim Reason", "Failed to extract text"),
       ("QC Responsibility", ""), ("Claim Status", "Failure"),
       ("Validate Month", ""), ("Claim shipped Qty", ""),
       ("Random check in customer warehouse",
         "Failed to extract text/Failed to extract text"),
       ("Re-check in warehouse", "")] := by
  refine ⟨rfl, by decide, by decide, by decide⟩

/-- Consume a case-insensitive literal: `some rest` when `pat` matches
the beginning of `l` up to character case. -/
def ciDrop : List Char → List Char → Option (List Char)
  | [], l => some l
  | _ :: _, [] => none
  | p :: ps, c :: cs => if p.toLower = c.toLower then ciDrop ps cs else none

/-- A digit or a dot — the class `[\d\.]`. -/
def isDigitDot (c : Char) : Bool := c.isDigit || c = '.'

/-- One attempt of the regex `dept\.\s*([\d\.]+)` (IGNORECASE) anchored
at the start of `l`: a case-insensitive `dept.` label, the greedily
skipped whitespace run, then the maximal non-empty run of digits and
dots, which is the capture.  (Whitespace and `[\d.]` are disjoint, so
the greedy `\s*` never needs to backtrack.) -/
def deptCapture (l : List Char) : Option (List Char) :=
  match ciDrop "dept.".data l with
  | none => none
  | some rest =>
    let run := (rest.dropWhile isPySpace).takeWhile isDigitDot
    if run = [] then none else some run

/-- `re.search` of the dept pattern: try the anchored match at every
position, left to right, first success wins. -/
def deptSearchL : List Char → Option (List Char)
  | [] => none
  | c :: t =>
    match deptCapture (c :: t) with
    | some r => some r
    | none => deptSearchL t

/-- Leftmost-match description of the dept regex, written from the
claim's wording: position `i` carries a match with capture `r` and
every earlier position carries none. -/
def DeptFirstMatchAt (l : List Char) (i : Nat) (r : List Char) : Prop :=
  deptCapture (l.drop i) = some r ∧ ∀ j, j < i → deptCapture (l.drop j) = none

instance (l : List Char) (i : Nat) (r : List Char) :
    Decidable (DeptFirstMatchAt l i r) := by
  unfold DeptFirstMatchAt
  infer_instance

/-- The scanner returns the leftmost match. -/
theorem deptSearchL_of_first (l : List Char) (i : Nat) (r : List Char)
    (hi : deptCapture (l.drop i) = some r)
    (hbefore : ∀ j, j < i → deptCapture (l.drop j) = none) :
    deptSearchL l = some r := by
  induction l generalizing i with
  | nil =>
    rw [List.drop_nil] at hi
    simp [deptCapture, ciDrop] at hi
  | cons c t ih =>
    cases i with
    | zero =>
      rw [List.drop_zero] at hi
      simp [deptSearchL, hi]
    | succ n =>
      have h0 : deptCapture (c :: t) = none := by
        have := hbefore 0 (Nat.succ_pos n)
        simpa using this
      simp only [deptSearchL, h0]
      apply ih n
      · rw [List.drop_succ_cons] at hi
        exact hi
      · intro j hj
        have := hbefore (j + 1) (Nat.succ_lt_succ hj)
        rwa [List.drop_succ_cons] at this

/-- The scanner fails exactly when no position matches. -/
theorem deptSearchL_of_none (l : List Char)
    (h : ∀ i, deptCapture (l.drop i) = none) : deptSearchL l = none := by
  induction l with
  | nil => rfl
  | cons c t ih =>
    have h0 := h 0
    rw [List.drop_zero] at h0
    simp only [deptSearchL, h0]
    apply ih
    intro i
    have := h (i + 1)
    rwa [List.drop_succ_cons] at this

/-- Does the abstract engine's answer for the dept pattern on `text`
agree with the concrete scanner (same match/no-match, same first
capture)?  Python's `re` satisfies this: `deptSearchL` is its
leftmost-match semantics for this pattern. -/
def deptEngineAgrees (eng : RegexEngine) (text : String) : Bool :=
  match deptSearchL text.data, eng.search ovh_dept_pat true false text with
  | some r, some m => mGroup m 1 = ⟨r⟩
  | none, none => true
  | _, _ => false

/-- C10: OVH extraction also extracts the department field — a rule the
spec's OVH section does not list: the first case-insensitive match of
a `dept.` label followed by a run of digits and dots sets the
FlatRecord department field to that run, and when no position matches
the field keeps `"Not extracted"`.  Stated through the concrete
scanner (proved above to realise the leftmost match) for any engine
that agrees with it on this one pattern. -/
theorem c10_ovh_dept_extraction (eng : RegexEngine) (text : String)
    (hagree : deptEngineAgrees eng text = true) :
    (∀ i r, DeptFirstMatchAt text.data i r →
      (extract_ovh_data eng text).dept = ⟨r⟩) ∧
    ((∀ i, deptCapture (text.data.drop i) = none) →
      (extract_ovh_data eng text).dept = "Not extracted") := by
  constructor
  · intro i r hfirst
    have hs : deptSearchL text.data = some r :=
      deptSearchL_of_first _ i r hfirst.1 hfirst.2
    unfold deptEngineAgrees at hagree
    rw [hs] at hagree
    cases he : eng.search ovh_dept_pat true false text with
    | none =>
      rw [he] at hagree
      simp at hagree
    | some m =>
      rw [he] at hagree
      simp only [decide_eq_true_eq] at hagree
      simp [extract_ovh_data, he, hagree]
  · intro hnone
    have hs : deptSearchL text.data = none := deptSearchL_of_none _ hnone
    unfold deptEngineAgrees at hagree
    rw [hs] at hagree
    cases he : eng.search ovh_dept_pat true false text with
    | some m =>
      rw [he] at hagree
      simp at hagree
    | none =>
      simp [extract_ovh_data, he]

/-- Text for the C10 witness: a `Dept.` label at position 2 followed by
the run `12.34`. -/
def c10Text : String := "x Dept. 12.34 end"

/-- Engine answering the dept pattern on `c10Text` with the scanner's
leftmost capture, as Python's `re` would. -/
def c10Engine : RegexEngine :=
  ⟨fun pat ic _ t =>
    if pat = ovh_dept_pat ∧ ic = true ∧ t = c10Text then
      (deptSearchL t.data).map fun r => ⟨0, 0, "", [some ⟨r⟩]⟩
    else none⟩

/-- C10 witness: on `c10Text` the first dept match captures `12.34`
and the OVH department field receives it. -/
theorem c10_ovh_dept_extraction_witness :
    (extract_ovh_data c10Engine c10Text).dept = "12.34" := by
  have h := (c10_ovh_dept_extraction c10Engine c10Text (by decide)).1
    2 "12.34".data ⟨by decide, by decide⟩
  exact h

end PdfTable
